import Mathlib

/-!
Verification development for the nacwrap library (a Python client for the
Nintex Automation Cloud API).  The definitions below are a shallow embedding
of the code in `nacwrap.py` (token lifecycle), `nacwrap/_helpers.py`
(retrying request executor) and `nacwrap/instances.py` / `nacwrap/tasks.py`
(pagination walkers and resource operations).  Machine-level details that the
properties do not touch (actual sockets, JSON text encoding) are abstracted,
but the control flow, the key names, the constants and the data threading all
mirror the Python source line by line.
-/

namespace Nacwrap

/-! ## Process environment (the credential store, `os.environ`) -/

/-- The process environment `os.environ`: a finite string-to-string map,
modelled as an association list.  -/
abbrev Env := List (String × String)

/-- Lookup `os.environ[k]` (also models `k in os.environ`): first match wins. -/
def envGet (e : Env) (k : String) : Option String :=
  match e with
  | [] => none
  | (k', v) :: rest => if k' = k then some v else envGet rest k

/-- Assignment `os.environ[k] = v`: overwrite an existing binding or append a new one. -/
def envSet (e : Env) (k v : String) : Env :=
  match e with
  | [] => [(k, v)]
  | (k', v') :: rest => if k' = k then (k, v) :: rest else (k', v') :: envSet rest k v

/-! ## Datetimes and `datetime.strptime(s, "%m/%d/%Y %H:%M:%S")` -/

/-- A parsed `datetime.datetime` (date and wall-clock time components). -/
structure PyDateTime where
  year : Nat
  month : Nat
  day : Nat
  hour : Nat
  minute : Nat
  second : Nat
deriving DecidableEq, Repr

/-- Python `datetime` comparison: lexicographic on
(year, month, day, hour, minute, second). -/
def dtLt (a b : PyDateTime) : Bool :=
  if a.year ≠ b.year then a.year < b.year
  else if a.month ≠ b.month then a.month < b.month
  else if a.day ≠ b.day then a.day < b.day
  else if a.hour ≠ b.hour then a.hour < b.hour
  else if a.minute ≠ b.minute then a.minute < b.minute
  else a.second < b.second

/-- Split a character list on a separator character (used to model the
field structure of the fixed strptime format). -/
def splitOnChar (c : Char) : List Char → List (List Char)
  | [] => [[]]
  | x :: xs =>
    let rest := splitOnChar c xs
    if x = c then [] :: rest
    else
      match rest with
      | [] => [[x]]
      | r :: rs => (x :: r) :: rs

/-- Parse a nonempty all-digit character list as a natural number. -/
def parseNatDigits (l : List Char) : Option Nat :=
  if l = [] then none
  else if l.all Char.isDigit then
    some (l.foldl (fun acc c => acc * 10 + (c.toNat - 48)) 0)
  else none

/-- Model of `datetime.strptime(s, "%m/%d/%Y %H:%M:%S")`: the result is `none`
where Python raises `ValueError` on a string that does not match the format. -/
def strptime_mdy_hms (s : String) : Option PyDateTime :=
  match splitOnChar ' ' s.toList with
  | [d, t] =>
    match splitOnChar '/' d, splitOnChar ':' t with
    | [m, dd, y], [h, mi, sec] => do
      let m' ← parseNatDigits m
      let d' ← parseNatDigits dd
      let y' ← parseNatDigits y
      let h' ← parseNatDigits h
      let mi' ← parseNatDigits mi
      let s' ← parseNatDigits sec
      some ⟨y', m', d', h', mi', s'⟩
    | _, _ => none
  | _ => none

/-! ## Errors raised by the embedded code -/

/-- The Python exceptions the embedded fragments can raise. -/
inductive Err where
  /-- Python AttributeError (e.g. a str object has no `value` attribute). -/
  | attributeError
  /-- Python KeyError: a dict is missing the given key. -/
  | keyError (k : String)
  /-- Python ValueError from `datetime.strptime` on a malformed string. -/
  | valueError
  /-- An `HTTPError` surfaced (or re-raised) with status code and body. -/
  | httpErr (status : Nat) (body : String)
  /-- The `tenacity.RetryError` raised once the attempt budget is exhausted;
  carries whether the last attempt raised a timeout (else a connection error). -/
  | retryExhausted (timedOut : Bool)
  /-- Model artifact: the modelled server list had no response left for a
  request the walker issued (in reality the request would block). -/
  | noResponse
deriving DecidableEq, Repr

instance exceptDecEq {ε α : Type} [DecidableEq ε] [DecidableEq α] :
    DecidableEq (Except ε α) := fun x y =>
  match x, y with
  | .ok a, .ok b =>
    if h : a = b then .isTrue (by rw [h]) else .isFalse (by simp [h])
  | .error a, .error b =>
    if h : a = b then .isTrue (by rw [h]) else .isFalse (by simp [h])
  | .ok _, .error _ => .isFalse (by simp)
  | .error _, .ok _ => .isFalse (by simp)

/-! ## Token lifecycle: `Decorators.refresh_token` and `Decorators.get_token`
    (src/nacwrap.py) -/

/-- The check performed by the `refresh_token` wrapper before the wrapped
operation runs (src/nacwrap.py lines 35-43): read
`NTX_BEARER_TOKEN_EXPIRES_AT` (defaulting to the 1901 sentinel), and decide
whether `Decorators.get_token` must be invoked: the token is absent, or the
parsed expiry is earlier than the current time.  `Err.valueError` models the
`strptime` failure on a malformed stored expiry. -/
def refresh_needed (env : Env) (now : PyDateTime) : Except Err Bool :=
  let expires_at :=
    match envGet env "NTX_BEARER_TOKEN_EXPIRES_AT" with
    | none => "01/01/1901 00:00:00"
    | some s => s
  if (envGet env "NTX_BEARER_TOKEN").isNone then .ok true
  else
    match strptime_mdy_hms expires_at with
    | none => .error .valueError
    | some dt => .ok (dtLt dt now)

/-- Number of Token Provider (`Decorators.get_token`) invocations a single
guarded call performs before running the wrapped operation. -/
def guard_provider_calls (env : Env) (now : PyDateTime) : Except Err Nat :=
  match refresh_needed env now with
  | .error e => .error e
  | .ok b => .ok (if b then 1 else 0)

/-- The environment writes performed by a successful `Decorators.get_token`
run (src/nacwrap.py lines 77-87): the token response's `access_token` is
stored under `NTX_BEARER_TOKEN` and its `expires_at` under `NTX_EXPIRES_AT`. -/
def get_token_success (env : Env) (access_token expires_at : String) : Env :=
  envSet (envSet env "NTX_BEARER_TOKEN" access_token) "NTX_EXPIRES_AT" expires_at

/-- Credential store contents right after a successful Token Provider run on
a fresh process: token `tok123`, server-declared expiry end of 2099. -/
def envAfterProvider : Env := get_token_success [] "tok123" "12/31/2099 00:00:00"

/-- A clock value well before the stored 2099 expiry. -/
def clock2026 : PyDateTime := ⟨2026, 6, 15, 12, 0, 0⟩

/-! ## The Resilient Request Executor (`nacwrap/_helpers.py`)

`_basic_retry = retry(stop=stop_after_attempt(5),
wait=wait_exponential(multiplier=1, min=4, max=10),
retry=retry_if_exception_type((ConnectionError, Timeout)))`, wrapped around
`_fetch_page`, `_delete`, `_put` and `_post`, each of which performs one
`requests` call and then `response.raise_for_status()`. -/

/-- An HTTP response: status code and raw body. -/
structure HttpResponse where
  status : Nat
  body : String
deriving DecidableEq, Repr

/-- What a single network attempt does at the socket level. -/
inductive NetResult where
  /-- A `requests.exceptions.ConnectionError`. -/
  | connFail
  /-- A `requests.exceptions.Timeout`. -/
  | timedOut
  /-- A response arrived. -/
  | resp (r : HttpResponse)
deriving DecidableEq, Repr

/-- Statuses for which `response.raise_for_status()` raises `HTTPError`. -/
def httpErrorStatus (s : Nat) : Bool := 400 ≤ s && s < 600

/-- Outcome of one attempt of `_fetch_page`/`_post`/`_put`/`_delete` as seen
by the tenacity retry wrapper. -/
inductive AttemptResult where
  | success (r : HttpResponse)
  | httpError (status : Nat) (body : String)
  | connError
  | timeout
deriving DecidableEq, Repr

/-- One attempt body: issue the request, then `raise_for_status()`. -/
def attemptOf (n : NetResult) : AttemptResult :=
  match n with
  | .connFail => .connError
  | .timedOut => .timeout
  | .resp r => if httpErrorStatus r.status then .httpError r.status r.body else .success r

/-- Only `ConnectionError` and `Timeout` are in the retry trigger set
(`retry_if_exception_type`). -/
def isTransient : AttemptResult → Bool
  | .connError => true
  | .timeout => true
  | _ => false

/-- Whether a transient attempt result was a timeout (used to record which
exception the exhausted retry surfaces). -/
def transientIsTimeout : AttemptResult → Bool
  | .timeout => true
  | _ => false

/-- The tenacity `wait_exponential(multiplier, min, max)` value used before
the retry that follows failed attempt number `attempt_number` (1-based):
`max(max(0, min), min(multiplier * 2 ^ attempt_number, max))`. -/
def wait_exponential (multiplier minW maxW attempt_number : Nat) : Nat :=
  max (max 0 minW) (min (multiplier * 2 ^ attempt_number) maxW)

/-- The wait applied by `_basic_retry` after failed attempt `n`:
`wait_exponential(multiplier=1, min=4, max=10)`. -/
def basicRetryWait (n : Nat) : Nat := wait_exponential 1 4 10 n

/-- Result of running a `_basic_retry`-wrapped call: how many attempts were
made, the backoff waits applied between attempts, and the final outcome. -/
structure RunOutcome where
  attempts : Nat
  waits : List Nat
  result : Except Err HttpResponse
deriving DecidableEq, Repr

/-- The tenacity retry loop.  `outcomes n` is the result of attempt `n`
(1-based); `k` is the current attempt number; `retriesLeft` is how many more
retries `stop_after_attempt(5)` still allows.  A non-transient exception
propagates immediately; a transient one either triggers a backoff wait and a
new attempt, or (budget exhausted) a `RetryError`. -/
def retryLoop (outcomes : Nat → AttemptResult) (k retriesLeft : Nat)
    (waits : List Nat) : RunOutcome :=
  match outcomes k, retriesLeft with
  | .success r, _ => ⟨k, waits, .ok r⟩
  | .httpError st b, _ => ⟨k, waits, .error (.httpErr st b)⟩
  | .connError, 0 => ⟨k, waits, .error (.retryExhausted false)⟩
  | .timeout, 0 => ⟨k, waits, .error (.retryExhausted true)⟩
  | .connError, rl + 1 => retryLoop outcomes (k + 1) rl (waits ++ [basicRetryWait k])
  | .timeout, rl + 1 => retryLoop outcomes (k + 1) rl (waits ++ [basicRetryWait k])

/-- Run a `_basic_retry`-wrapped callable: first attempt is number 1, and
`stop_after_attempt(5)` allows 4 retries after it. -/
def _basic_retry_run (outcomes : Nat → AttemptResult) : RunOutcome :=
  retryLoop outcomes 1 4 []

/-- The retrying executor `_fetch_page` (a `requests.get` then
`raise_for_status`, under `_basic_retry`), driven by the per-attempt network
behaviour `net`. -/
def _fetch_page_run (net : Nat → NetResult) : RunOutcome :=
  _basic_retry_run (fun k => attemptOf (net k))

/-- The retrying executor `_post` (a `requests.post` of `json.dumps(data)`
then `raise_for_status`, under `_basic_retry`). -/
def _post_run (net : Nat → NetResult) : RunOutcome :=
  _basic_retry_run (fun k => attemptOf (net k))

/-- The retrying executor `_put` (a `requests.put` of `json.dumps(data)`
then `raise_for_status`, under `_basic_retry`). -/
def _put_run (net : Nat → NetResult) : RunOutcome :=
  _basic_retry_run (fun k => attemptOf (net k))

/-- The retrying executor `_delete` (a `requests.delete` then
`raise_for_status`, under `_basic_retry`). -/
def _delete_run (net : Nat → NetResult) : RunOutcome :=
  _basic_retry_run (fun k => attemptOf (net k))

/-- The expected backoff schedule: waits after attempts `k, k+1, ...` for
`rl` retries. -/
def expWaits (k : Nat) : Nat → List Nat
  | 0 => []
  | n + 1 => basicRetryWait k :: expWaits (k + 1) n

/-- A network that fails to connect on every attempt. -/
def netAllConn : Nat → NetResult := fun _ => .connFail

/-- Per-attempt outcomes that are always a connection error. -/
def outcomesAllConn : Nat → AttemptResult := fun _ => .connError

/-- A network that answers the first attempt with HTTP 404. -/
def net404 : Nat → NetResult := fun _ => .resp ⟨404, "not found"⟩

/-- A network that answers the first attempt with HTTP 200. -/
def net200 : Nat → NetResult := fun _ => .resp ⟨200, "ok"⟩

/-! ## Request/event traces for resource operations -/

/-- The JSON body an operation sends (`data=json.dumps(...)`). -/
inductive ReqBody where
  /-- Body text `null`, i.e. `json.dumps(None)`: what `_post`/`_put` send
  when no `data` argument is given. -/
  | null
  /-- Body `json.dumps({"assignees": ..., "message": ...})` as sent by
  `task_delegate`. -/
  | delegate (assignees : List String) (message : String)
deriving DecidableEq, Repr

/-- An HTTP request as an operation hands it to the executor. -/
structure HttpRequest where
  method : String
  url : String
  headers : List (String × String)
  params : Option (List (String × String))
  body : Option ReqBody
deriving DecidableEq, Repr

/-- Observable events of one resource-operation call. -/
inductive Event where
  /-- The `refresh_token` wrapper ran its credential check. -/
  | guardCheck
  /-- The wrapper invoked `Decorators.get_token`. -/
  | providerCall
  /-- A request was handed to the HTTP layer. -/
  | request (r : HttpRequest)
deriving DecidableEq, Repr

/-- Predicate: the event is the Token Guard check. -/
def isGuardCheck : Event → Bool
  | .guardCheck => true
  | _ => false

/-- Predicate: the event is a Token Provider invocation. -/
def isProviderCall : Event → Bool
  | .providerCall => true
  | _ => false

/-- Predicate: the event is a request carrying an `Authorization` header. -/
def isAuthedRequest : Event → Bool
  | .request r => r.headers.any (fun kv => kv.1 == "Authorization")
  | _ => false

/-- The event trace of `task_delegate` (nacwrap/tasks.py lines 14-54).  The
function is NOT decorated with `Decorators.refresh_token`; it builds the
delegate URL from `NINTEX_BASE_URL`, then calls `_put` with an
`Authorization: Bearer` header read from `NTX_BEARER_TOKEN`, params omitted
(the `params=params` argument is commented out in the source) and the
assignees/message dict as body. -/
def task_delegate_run (env : Env) (assignmentId taskId : String)
    (assignees : List String) (message : String) : Except Err (List Event) :=
  match envGet env "NINTEX_BASE_URL" with
  | none => .error (.keyError "NINTEX_BASE_URL")
  | some baseUrl =>
    match envGet env "NTX_BEARER_TOKEN" with
    | none => .error (.keyError "NTX_BEARER_TOKEN")
    | some token =>
      .ok [.request
        { method := "PUT"
        , url := baseUrl ++ "/workflows/v2/tasks/" ++ taskId ++ "/assignments/"
            ++ assignmentId ++ "/delegate"
        , headers := [("Authorization", "Bearer " ++ token),
            ("Content-Type", "application/json")]
        , params := none
        , body := some (.delegate assignees message) }]

/-- An environment holding a stale credential: the stored expiry (under the
key the guard actually reads) lies in 2020, before `clock2026`. -/
def envStale : Env :=
  [("NINTEX_BASE_URL", "https://api.example"),
   ("NTX_BEARER_TOKEN", "staletok"),
   ("NTX_BEARER_TOKEN_EXPIRES_AT", "01/01/2020 00:00:00")]

/-! ## The Pagination Walker (`instances_list` in nacwrap/instances.py and
`task_search` in nacwrap/tasks.py)

Both functions run the same `while url:` loop: fetch the current `url` via
`_fetch_page` (params only on the first request), re-raise an `HTTPError` as
an exception carrying status and body, extract `data[<payload key>]`
(`KeyError` if absent), append to the accumulator, and continue with
`data.get("nextLink")` — a missing/empty link is falsy and ends the loop. -/

/-- Query parameters of one request. -/
abbrev Params := List (String × String)

/-- One request the walker hands to `_fetch_page`. -/
structure PageReq where
  url : String
  params : Option Params
deriving DecidableEq, Repr

/-- What the remote serves for one page request. -/
inductive PageResp (α : Type) where
  /-- A non-success status, making `_fetch_page` raise `HTTPError`. -/
  | httpError (status : Nat) (body : String)
  /-- A 2xx JSON page: the payload key's item list when the key is present,
  and the value of `data.get("nextLink")`. -/
  | page (payload : Option (List α)) (nextLink : Option String)
deriving DecidableEq, Repr

/-- The pagination loop.  `server` lists the responses the remote will give
to successive requests; `url`/`params` are the Python loop variables; `acc`
is `results` and `reqs` the requests issued so far.  The first component of
the result is the value returned (or the exception raised, as `.error`);
the second is the full request trace. -/
def pagGo {α : Type} (key : String) (server : List (PageResp α)) (url : String)
    (params : Option Params) (acc : List α) (reqs : List PageReq) :
    Except Err (List α) × List PageReq :=
  if url = "" then (.ok acc, reqs)
  else
    match server with
    | [] => (.error .noResponse, reqs)
    | resp :: rest =>
      match resp with
      | .httpError st b => (.error (.httpErr st b), reqs ++ [⟨url, params⟩])
      | .page payload nextLink =>
        match payload with
        | none => (.error (.keyError key), reqs ++ [⟨url, params⟩])
        | some items =>
          pagGo key rest (nextLink.getD "") none (acc ++ items) (reqs ++ [⟨url, params⟩])

/-- The pagination walk of `instances_list`: payload key `"instances"`,
initial URL `NINTEX_BASE_URL + "/workflows/v2/instances"`, caller's filter
params on the first request only. -/
def instances_list_walk {α : Type} (baseUrl : String) (params : Params)
    (server : List (PageResp α)) : Except Err (List α) × List PageReq :=
  pagGo "instances" server (baseUrl ++ "/workflows/v2/instances") (some params) [] []

/-- The pagination walk of `task_search`: payload key `"tasks"`, initial URL
`NINTEX_BASE_URL + "/workflows/v2/tasks"`. -/
def task_search_walk {α : Type} (baseUrl : String) (params : Params)
    (server : List (PageResp α)) : Except Err (List α) × List PageReq :=
  pagGo "tasks" server (baseUrl ++ "/workflows/v2/tasks") (some params) [] []

/-- A well-formed page: its item list (present under the payload key) and
its optional continuation link. -/
structure OkPage (α : Type) where
  items : List α
  next : Option String
deriving DecidableEq, Repr

/-- Encode a well-formed page as the response the remote serves. -/
def OkPage.toResp {α : Type} (p : OkPage α) : PageResp α := .page (some p.items) p.next

/-- A page sequence as a well-behaved remote serves it: every page except
the last carries a truthy continuation link, and the last carries none. -/
inductive Serves {α : Type} : List (OkPage α) → Prop
  | last (items : List α) : Serves [⟨items, none⟩]
  | cons (items : List α) (s : String) (rest : List (OkPage α)) :
      s ≠ "" → Serves rest → Serves (⟨items, some s⟩ :: rest)

/-- A page sequence in which every page carries a truthy continuation link
(a walk through it keeps going). -/
inductive Leads {α : Type} : List (OkPage α) → Prop
  | nil : Leads []
  | cons (items : List α) (s : String) (rest : List (OkPage α)) :
      s ≠ "" → Leads rest → Leads (⟨items, some s⟩ :: rest)

/-- A response on which the walker's loop body fails: a non-success HTTP
status, or a 2xx page missing the expected payload key. -/
def badPage {α : Type} : PageResp α → Bool
  | .httpError _ _ => true
  | .page none _ => true
  | .page (some _) _ => false

/-- The exception the loop body raises on a bad response. -/
def badErr {α : Type} (key : String) : PageResp α → Err
  | .httpError st b => .httpErr st b
  | .page _ _ => .keyError key

/-- The request trace a walk starting at `url`/`params` produces over a
well-formed page sequence: one request per page, each later request
addressed to the previous page's continuation link with no params. -/
def walkTrace {α : Type} : String → Option Params → List (OkPage α) → List PageReq
  | _, _, [] => []
  | url, params, p :: rest => ⟨url, params⟩ :: walkTrace (p.next.getD "") none rest

/-- Fixture: a single served page with zero items and no continuation. -/
def emptyPages : List (OkPage Nat) := [⟨[], none⟩]

/-- Fixture: the first of two served pages, linking to the second. -/
def firstPage : OkPage Nat := ⟨[1, 2], some "https://api.example/page2"⟩

/-- Fixture: the remaining served pages after `firstPage`. -/
def restPages : List (OkPage Nat) := [⟨[3], none⟩]

/-- Fixture: one served page whose continuation link leads to a failure. -/
def leadPage : List (OkPage Nat) := [⟨[1], some "https://api.example/page2"⟩]

/-- Fixture: a mid-walk failure, an HTTP 500 response. -/
def badResp500 : PageResp Nat := .httpError 500 "boom"

/-! ## Resource operations: `instance_resolve`, `instances_list` /
`get_instance_data` (nacwrap/instances.py) -/

/-- The `ResolveType` enum from nacwrap/data_model.py. -/
inductive ResolveType where
  | RETRY
  | FAIL
deriving DecidableEq, Repr

/-- Member values of the `ResolveType` enum. -/
def ResolveType.value : ResolveType → String
  | .RETRY => "1"
  | .FAIL => "2"

/-- The single request `instance_resolve` (nacwrap/instances.py lines
277-312) hands to `_post`: the resolve URL built from the instance id, the
bearer headers, `params={}`, and — since `_post` is called without `data` —
the body `json.dumps(None)`.  The `resolveType` and `message` arguments are
accepted but appear nowhere in the request. -/
def instance_resolve_request (baseUrl token instance_id : String)
    (resolveType : ResolveType) (message : String) : HttpRequest :=
  { method := "POST"
  , url := baseUrl ++ "/workflows/v1/instances/" ++ instance_id ++ "/resolve"
  , headers := [("Authorization", "Bearer " ++ token),
      ("Content-Type", "application/json")]
  , params := some []
  , body := some .null }

/-- A value passed as the `status` argument of `instances_list` /
`get_instance_data` (declared `Optional[str]`). -/
inductive StatusArg where
  /-- Python `None`. -/
  | pyNone
  /-- A plain `str`, as the declared type says. -/
  | pyStr (s : String)
  /-- An enum-like object carrying a `.value` attribute (e.g. a
  `WorkflowStatus` member), which is what the code actually needs. -/
  | enumMember (v : String)
deriving DecidableEq, Repr

/-- The `if status is not None: status = status.value` step of
`instances_list`: accessing `.value` on a plain `str` raises
`AttributeError`. -/
def status_dot_value : StatusArg → Except Err (Option String)
  | .pyNone => .ok none
  | .pyStr _ => .error .attributeError
  | .enumMember v => .ok (some v)

/-- Build the `params` dict and drop the `None`-valued entries
(the `{k: v for k, v in params.items() if v is not None}` comprehension). -/
def buildParams (pairs : List (String × Option String)) : Params :=
  pairs.filterMap (fun kv => kv.2.map (fun v => (kv.1, v)))

/-- Run `instances_list` (nacwrap/instances.py lines 162-239): convert
`status` via `.value`, build the filter params (datetimes arrive here
already `strftime`-formatted), then walk the pages.  If the `.value` access
raises, no request is issued. -/
def instances_list_run {α : Type} (baseUrl : String)
    (workflow_name : Option String) (status : StatusArg)
    (order_by : Option String) (from_datetime to_datetime : Option String)
    (page_size : Option Nat) (server : List (PageResp α)) :
    Except Err (List α) × List PageReq :=
  match status_dot_value status with
  | .error e => (.error e, [])
  | .ok sv =>
    let params := buildParams
      [("workflowName", workflow_name), ("status", sv), ("order", order_by),
       ("from", from_datetime), ("to", to_datetime),
       ("pageSize", page_size.map toString)]
    instances_list_walk baseUrl params server

/-- Run `get_instance_data` (nacwrap/instances.py lines 125-159): a
deprecated wrapper that forwards every argument to `instances_list`. -/
def get_instance_data_run {α : Type} (baseUrl : String)
    (workflow_name : Option String) (status : StatusArg)
    (order_by : Option String) (from_datetime to_datetime : Option String)
    (page_size : Option Nat) (server : List (PageResp α)) :
    Except Err (List α) × List PageReq :=
  instances_list_run baseUrl workflow_name status order_by from_datetime
    to_datetime page_size server

end Nacwrap

namespace Nacwrap

/-! Theorems -/

/-- C1: the claim says a Token Guard check immediately following a successful
Token Provider run (clock still before the stored expiry) issues zero further
Token Provider calls.  The code violates this: `get_token` stores the expiry
under `NTX_EXPIRES_AT` while the guard reads `NTX_BEARER_TOKEN_EXPIRES_AT`,
so after a provider run storing a 2099 expiry the guard still sees the 1901
sentinel and invokes the provider again — one call, not zero. -/
theorem c1_guard_refreshes_despite_fresh_token :
    -- the provider run stored the token and a not-yet-elapsed expiry:
    envGet envAfterProvider "NTX_BEARER_TOKEN" = some "tok123"
    ∧ envGet envAfterProvider "NTX_EXPIRES_AT" = some "12/31/2099 00:00:00"
    ∧ strptime_mdy_hms "12/31/2099 00:00:00" = some ⟨2099, 12, 31, 0, 0, 0⟩
    ∧ dtLt clock2026 ⟨2099, 12, 31, 0, 0, 0⟩ = true
    -- yet the immediately following guard check calls the provider once:
    ∧ guard_provider_calls envAfterProvider clock2026 = .ok 1 := by
  decide

/-- C2: the claim says every authenticated operation runs the Token Guard
check before its request is issued.  `task_delegate` refutes it: with an
expired stored credential (the guard, had it run, would have refreshed), the
operation still issues its authenticated PUT with zero guard checks and zero
Token Provider calls. -/
theorem c2_task_delegate_skips_guard :
    -- at this clock the stored credential is expired, so a guard check
    -- would have invoked the provider:
    refresh_needed envStale clock2026 = .ok true
    -- yet task_delegate issues exactly one authenticated request and
    -- performs no guard check and no provider call:
    ∧ (task_delegate_run envStale "a1" "t1" ["user@example.com"] "hello").toOption.map
        (fun evs => (evs.countP isGuardCheck, evs.countP isProviderCall,
                     evs.countP isAuthedRequest))
      = some (0, 0, 1) := by
  decide

/-- Helper: when every attempt raises a transient exception, the retry loop
spends its whole budget, applying the exponential-backoff schedule, and ends
in a `RetryError` carrying the last transient exception. -/
theorem retryLoop_all_transient (outcomes : Nat → AttemptResult)
    (h : ∀ n, isTransient (outcomes n) = true) :
    ∀ rl k waits, retryLoop outcomes k rl waits =
      ⟨k + rl, waits ++ expWaits k rl,
       .error (.retryExhausted (transientIsTimeout (outcomes (k + rl))))⟩ := by
  intro rl
  induction rl with
  | zero =>
    intro k waits
    have hk := h k
    rw [retryLoop.eq_def]
    cases ok : outcomes k with
    | success r => rw [ok] at hk; simp [isTransient] at hk
    | httpError st b => rw [ok] at hk; simp [isTransient] at hk
    | connError => simp [ok, expWaits, transientIsTimeout]
    | timeout => simp [ok, expWaits, transientIsTimeout]
  | succ n ih =>
    intro k waits
    have hk := h k
    have hshift : k + 1 + n = k + (n + 1) := by omega
    rw [retryLoop.eq_def]
    cases ok : outcomes k with
    | success r => rw [ok] at hk; simp [isTransient] at hk
    | httpError st b => rw [ok] at hk; simp [isTransient] at hk
    | connError => simp [ok, ih (k + 1), expWaits, hshift]
    | timeout => simp [ok, ih (k + 1), expWaits, hshift]

/-- C4: when every attempt raises a transient fault (connection failure or
timeout), the executor makes exactly 5 attempts, waits 4, 4, 8 and 10
seconds between them (exponential backoff with 4-second floor and 10-second
cap), and then surfaces a `RetryError` carrying the last transient fault —
it never makes a 6th attempt. -/
theorem c4_retry_bound (outcomes : Nat → AttemptResult)
    (h : ∀ n, isTransient (outcomes n) = true) :
    _basic_retry_run outcomes =
      ⟨5, [4, 4, 8, 10],
       .error (.retryExhausted (transientIsTimeout (outcomes 5)))⟩ := by
  have hr := retryLoop_all_transient outcomes h 4 1 []
  have hw : expWaits 1 4 = [4, 4, 8, 10] := by decide
  rw [_basic_retry_run, hr, hw]
  simp

/-- Witness for C4 at a network that always fails to connect. -/
theorem c4_retry_bound_witness :
    (∀ n, isTransient (outcomesAllConn n) = true)
    ∧ _basic_retry_run outcomesAllConn =
        ⟨5, [4, 4, 8, 10], .error (.retryExhausted false)⟩ :=
  ⟨fun _ => rfl, c4_retry_bound outcomesAllConn (fun _ => rfl)⟩

/-- C5: a non-transient failure on the first attempt — any HTTP status in
the `raise_for_status` range, e.g. 404 — yields exactly 1 attempt, no
backoff wait, and the surfaced error carries the status code and the raw
response body. -/
theorem c5_retry_exclusivity (net : Nat → NetResult) (st : Nat) (b : String)
    (hst : httpErrorStatus st = true) (h1 : net 1 = .resp ⟨st, b⟩) :
    _fetch_page_run net = ⟨1, [], .error (.httpErr st b)⟩ := by
  rw [_fetch_page_run, _basic_retry_run, retryLoop.eq_def]
  simp [h1, attemptOf, hst]

/-- Witness for C5 at a server that answers 404 immediately. -/
theorem c5_retry_exclusivity_witness :
    httpErrorStatus 404 = true
    ∧ net404 1 = .resp ⟨404, "not found"⟩
    ∧ _fetch_page_run net404 = ⟨1, [], .error (.httpErr 404 "not found")⟩ :=
  ⟨rfl, rfl, c5_retry_exclusivity net404 404 "not found" rfl rfl⟩

/-- Helper for C8: if the retry loop returns a response normally, some
attempt produced it and `raise_for_status` did not raise on it, so its
status is outside the error range. -/
theorem retryLoop_ok_status (net : Nat → NetResult) :
    ∀ rl k waits r,
      (retryLoop (fun n => attemptOf (net n)) k rl waits).result = .ok r →
      httpErrorStatus r.status = false := by
  intro rl
  induction rl with
  | zero =>
    intro k waits r hr
    rw [retryLoop.eq_def] at hr
    cases hn : net k with
    | connFail => rw [hn] at hr; simp [attemptOf] at hr
    | timedOut => rw [hn] at hr; simp [attemptOf] at hr
    | resp resp =>
      rw [hn] at hr
      by_cases hs : httpErrorStatus resp.status = true
      · simp [attemptOf, hs] at hr
      · simp [attemptOf, hs] at hr
        subst hr
        simpa using hs
  | succ n ih =>
    intro k waits r hr
    rw [retryLoop.eq_def] at hr
    cases hn : net k with
    | connFail => rw [hn] at hr; simp [attemptOf] at hr; exact ih _ _ r hr
    | timedOut => rw [hn] at hr; simp [attemptOf] at hr; exact ih _ _ r hr
    | resp resp =>
      rw [hn] at hr
      by_cases hs : httpErrorStatus resp.status = true
      · simp [attemptOf, hs] at hr
      · simp [attemptOf, hs] at hr
        subst hr
        simpa using hs

/-- C8: whenever `_fetch_page`, `_post`, `_put` or `_delete` returns
normally, the returned response has a success status (outside the
`raise_for_status` error range 400-599): a non-success status never produces
a normal return. -/
theorem c8_success_postcondition (net : Nat → NetResult) (r : HttpResponse) :
    ((_fetch_page_run net).result = .ok r → httpErrorStatus r.status = false)
    ∧ ((_post_run net).result = .ok r → httpErrorStatus r.status = false)
    ∧ ((_put_run net).result = .ok r → httpErrorStatus r.status = false)
    ∧ ((_delete_run net).result = .ok r → httpErrorStatus r.status = false) :=
  ⟨retryLoop_ok_status net 4 1 [] r, retryLoop_ok_status net 4 1 [] r,
   retryLoop_ok_status net 4 1 [] r, retryLoop_ok_status net 4 1 [] r⟩

/-- Witness for C8 at a server that answers 200 immediately. -/
theorem c8_success_postcondition_witness :
    (_fetch_page_run net200).result = .ok ⟨200, "ok"⟩
    ∧ httpErrorStatus 200 = false :=
  ⟨by decide, (c8_success_postcondition net200 ⟨200, "ok"⟩).1 (by decide)⟩

/-- Helper: appending a nonempty suffix yields a nonempty string. -/
theorem append_ne_empty (a b : String) (hb : 0 < b.length) : a ++ b ≠ "" := by
  intro he
  have h2 := congrArg String.length he
  rw [String.length_append] at h2
  have h0 : String.length "" = 0 := rfl
  omega

/-- Helper: over a well-behaved page sequence the walker returns the
accumulator extended by all items in order, and issues `walkTrace`'s
requests. -/
theorem pagGo_serves {α : Type} (key : String) (pages : List (OkPage α))
    (h : Serves pages) :
    ∀ url params acc reqs, url ≠ "" →
      pagGo key (pages.map OkPage.toResp) url params acc reqs =
        (.ok (acc ++ (pages.map OkPage.items).flatten),
         reqs ++ walkTrace url params pages) := by
  induction h with
  | last items =>
    intro url params acc reqs hu
    rw [pagGo.eq_def]
    simp [hu, OkPage.toResp, walkTrace, pagGo]
  | cons items s rest hs hrest ih =>
    intro url params acc reqs hu
    rw [pagGo.eq_def]
    simp only [List.map_cons, OkPage.toResp]
    simp [hu, walkTrace,
      ih s none (acc ++ items) (reqs ++ [⟨url, params⟩]) hs]

/-- Helper: the walker's request trace has one request per served page. -/
theorem walkTrace_length {α : Type} :
    ∀ (url : String) (params : Option Params) (pages : List (OkPage α)),
      (walkTrace url params pages).length = pages.length := by
  intro url params pages
  induction pages generalizing url params with
  | nil => rfl
  | cons p rest ih => simp [walkTrace, ih]

/-- C3: over any well-behaved page sequence (each page's item list present
under the payload key, all but the last linking onward, the last carrying no
continuation), both pagination walkers return the concatenation of the
pages' item lists in served order, issue exactly one request per page, and
terminate at the page with no continuation; an empty first page with no
continuation yields an empty list, not an error. -/
theorem c3_pagination_completeness {α : Type} (pages : List (OkPage α))
    (h : Serves pages) (baseUrl : String) (params : Params) :
    instances_list_walk baseUrl params (pages.map OkPage.toResp) =
      (.ok ((pages.map OkPage.items).flatten),
       walkTrace (baseUrl ++ "/workflows/v2/instances") (some params) pages)
    ∧ (walkTrace (baseUrl ++ "/workflows/v2/instances") (some params) pages).length
        = pages.length
    ∧ task_search_walk baseUrl params (pages.map OkPage.toResp) =
      (.ok ((pages.map OkPage.items).flatten),
       walkTrace (baseUrl ++ "/workflows/v2/tasks") (some params) pages)
    ∧ (walkTrace (baseUrl ++ "/workflows/v2/tasks") (some params) pages).length
        = pages.length := by
  refine ⟨?_, walkTrace_length _ _ _, ?_, walkTrace_length _ _ _⟩
  · have hu := append_ne_empty baseUrl "/workflows/v2/instances" (by decide)
    rw [instances_list_walk,
      pagGo_serves "instances" pages h _ (some params) [] [] hu]
    simp
  · have hu := append_ne_empty baseUrl "/workflows/v2/tasks" (by decide)
    rw [task_search_walk,
      pagGo_serves "tasks" pages h _ (some params) [] [] hu]
    simp

/-- Witness for C3 at the empty first page served with no continuation. -/
theorem c3_pagination_completeness_witness :
    instances_list_walk "https://api.example" [] (emptyPages.map OkPage.toResp) =
      (.ok ((emptyPages.map OkPage.items).flatten),
       walkTrace ("https://api.example" ++ "/workflows/v2/instances")
         (some []) emptyPages)
    ∧ (walkTrace ("https://api.example" ++ "/workflows/v2/instances")
         (some []) emptyPages).length = emptyPages.length
    ∧ task_search_walk "https://api.example" [] (emptyPages.map OkPage.toResp) =
      (.ok ((emptyPages.map OkPage.items).flatten),
       walkTrace ("https://api.example" ++ "/workflows/v2/tasks")
         (some []) emptyPages)
    ∧ (walkTrace ("https://api.example" ++ "/workflows/v2/tasks")
         (some []) emptyPages).length = emptyPages.length :=
  c3_pagination_completeness emptyPages (Serves.last []) "https://api.example" []

/-- Helper: a walk over a chain of linking pages followed by a bad response
raises the bad response's exception. -/
theorem pagGo_leads_bad {α : Type} (key : String) (pre : List (OkPage α))
    (h : Leads pre) (bad : PageResp α) (hb : badPage bad = true) :
    ∀ url params acc reqs, url ≠ "" →
      (pagGo key (pre.map OkPage.toResp ++ [bad]) url params acc reqs).1 =
        .error (badErr key bad) := by
  induction h with
  | nil =>
    intro url params acc reqs hu
    rw [pagGo.eq_def]
    cases bad with
    | httpError st b => simp [hu, badErr]
    | page payload next =>
      cases payload with
      | none => simp [hu, badErr]
      | some items => simp [badPage] at hb
  | cons items s rest hs hrest ih =>
    intro url params acc reqs hu
    rw [pagGo.eq_def]
    simp only [List.map_cons, List.cons_append, OkPage.toResp]
    simp [hu, ih s none (acc ++ items) (reqs ++ [⟨url, params⟩]) hs]

/-- C6: if some page request of a walk fails with a non-success status, or a
page response lacks the expected payload key, the whole walk raises (the
result is the exception, not a list): the items of the pages already fetched
are not returned. -/
theorem c6_pagination_atomicity {α : Type} (pre : List (OkPage α))
    (h : Leads pre) (bad : PageResp α) (hb : badPage bad = true)
    (baseUrl : String) (params : Params) :
    (instances_list_walk baseUrl params (pre.map OkPage.toResp ++ [bad])).1 =
      .error (badErr "instances" bad)
    ∧ (task_search_walk baseUrl params (pre.map OkPage.toResp ++ [bad])).1 =
      .error (badErr "tasks" bad) := by
  constructor
  · have hu := append_ne_empty baseUrl "/workflows/v2/instances" (by decide)
    rw [instances_list_walk]
    exact pagGo_leads_bad "instances" pre h bad hb _ (some params) [] [] hu
  · have hu := append_ne_empty baseUrl "/workflows/v2/tasks" (by decide)
    rw [task_search_walk]
    exact pagGo_leads_bad "tasks" pre h bad hb _ (some params) [] [] hu

/-- Witness for C6: one good page linking on, then an HTTP 500. -/
theorem c6_pagination_atomicity_witness :
    (instances_list_walk "https://api.example" []
        (leadPage.map OkPage.toResp ++ [badResp500])).1 =
      .error (badErr "instances" badResp500)
    ∧ (task_search_walk "https://api.example" []
        (leadPage.map OkPage.toResp ++ [badResp500])).1 =
      .error (badErr "tasks" badResp500) :=
  c6_pagination_atomicity leadPage
    (Leads.cons [1] "https://api.example/page2" [] (by decide) Leads.nil)
    badResp500 rfl "https://api.example" []

/-- Helper: every request in a continuation trace carries no params. -/
theorem walkTrace_params_none {α : Type} :
    ∀ (pages : List (OkPage α)) (url : String),
      ∀ r ∈ walkTrace url none pages, r.params = (none : Option Params) := by
  intro pages
  induction pages with
  | nil => intro url r hr; simp [walkTrace] at hr
  | cons p rest ih =>
    intro url r hr
    simp only [walkTrace, List.mem_cons] at hr
    rcases hr with h1 | h2
    · subst h1; rfl
    · exact ih _ r h2

/-- Helper: the URLs of a continuation trace are the start URL followed by
the continuation links of every page but the last. -/
theorem walkTrace_urls {α : Type} :
    ∀ (qs : List (OkPage α)) (q : OkPage α) (url : String) (params : Option Params),
      (walkTrace url params (q :: qs)).map PageReq.url =
        url :: ((q :: qs).dropLast.map (fun x => x.next.getD "")) := by
  intro qs
  induction qs with
  | nil => intro q url params; simp [walkTrace]
  | cons q' qs' ih =>
    intro q url params
    have step : walkTrace url params (q :: q' :: qs') =
        ⟨url, params⟩ :: walkTrace (q.next.getD "") none (q' :: qs') := rfl
    rw [step, List.map_cons, ih q' (q.next.getD "") none]
    simp [List.dropLast_cons₂]

/-- C7: in a walk over served pages, the first request goes to the base URL
with the caller's filter params; every later request carries no params and
is addressed exactly to the continuation link returned by the previous
page. -/
theorem c7_continuation_requests {α : Type} (p : OkPage α)
    (rest : List (OkPage α)) (h : Serves (p :: rest)) (baseUrl : String)
    (params : Params) :
    (instances_list_walk baseUrl params ((p :: rest).map OkPage.toResp)).2 =
      ⟨baseUrl ++ "/workflows/v2/instances", some params⟩ ::
        walkTrace (p.next.getD "") none rest
    ∧ (∀ r ∈ walkTrace (p.next.getD "") none rest,
        r.params = (none : Option Params))
    ∧ (walkTrace (p.next.getD "") none rest).map PageReq.url =
        ((p :: rest).dropLast.map (fun q => q.next.getD "")) := by
  refine ⟨?_, fun r hr => walkTrace_params_none rest _ r hr, ?_⟩
  · have hu := append_ne_empty baseUrl "/workflows/v2/instances" (by decide)
    rw [instances_list_walk,
      pagGo_serves "instances" (p :: rest) h _ (some params) [] [] hu]
    simp [walkTrace]
  · cases rest with
    | nil => simp [walkTrace]
    | cons q qs =>
      rw [walkTrace_urls qs q (p.next.getD "") none]
      simp [List.dropLast_cons₂]

/-- Witness for C7 at a two-page walk. -/
theorem c7_continuation_requests_witness :
    (instances_list_walk "https://api.example" []
        ((firstPage :: restPages).map OkPage.toResp)).2 =
      ⟨"https://api.example" ++ "/workflows/v2/instances", some []⟩ ::
        walkTrace (firstPage.next.getD "") none restPages
    ∧ (∀ r ∈ walkTrace (firstPage.next.getD "") none restPages,
        r.params = (none : Option Params))
    ∧ (walkTrace (firstPage.next.getD "") none restPages).map PageReq.url =
        ((firstPage :: restPages).dropLast.map (fun q => q.next.getD "")) :=
  c7_continuation_requests firstPage restPages
    (Serves.cons [1, 2] "https://api.example/page2" [⟨[3], none⟩] (by decide)
      (Serves.last [3])) "https://api.example" []

/-- C9: the request `instance_resolve` issues is the same for any values of
its `resolveType` and `message` arguments — neither appears in the URL,
query parameters, headers or body, so the outcome is independent of them. -/
theorem c9_resolve_ignores_args (baseUrl token instance_id : String)
    (rt1 rt2 : ResolveType) (m1 m2 : String) :
    instance_resolve_request baseUrl token instance_id rt1 m1 =
      instance_resolve_request baseUrl token instance_id rt2 m2 := rfl

/-- C10: calling `instances_list` (or `get_instance_data`) with any plain
string as `status` raises `AttributeError` at the `status.value` conversion,
before any parameters are built or any request is issued; only `None` or an
enum-like value carrying `.value` avoids this. -/
theorem c10_str_status_raises {α : Type} (baseUrl : String)
    (wn ob f t : Option String) (ps : Option Nat) (s : String)
    (server : List (PageResp α)) :
    instances_list_run baseUrl wn (.pyStr s) ob f t ps server =
      (.error .attributeError, [])
    ∧ get_instance_data_run baseUrl wn (.pyStr s) ob f t ps server =
      (.error .attributeError, [])
    ∧ status_dot_value .pyNone = .ok none
    ∧ (∀ v, status_dot_value (.enumMember v) = .ok (some v)) :=
  ⟨rfl, rfl, rfl, fun _ => rfl⟩

end Nacwrap
